import Mathlib

/-!
Shallow embedding of the Jito bundle RPC layer (`crates/core/src/rpc/jito.rs`):
`sendBundle` (sequential fail-fast submission plus bundle-identifier
derivation) and `simulateBundle` (fail-fast decode followed by chained
simulation and wire-level result shaping).  External collaborators — the
single-transaction submission primitive, the transaction decoder, the
chained-simulation engine and the slot accessor — are taken as function
parameters, matching the narrow interfaces through which the source consumes
them.
-/

namespace Surfpool

/-- JSON-RPC error value (`jsonrpc_core::Error`): numeric code, message, and
an opaque optional data payload. -/
structure RpcError where
  code : Int
  message : String
  data : Option String
deriving DecidableEq, Repr

/-- Decidable equality for `Except`, so endpoint results can be compared on
concrete inputs. -/
instance {ε α : Type} [DecidableEq ε] [DecidableEq α] : DecidableEq (Except ε α) :=
  fun a b =>
    match a, b with
    | .ok x, .ok y =>
      if h : x = y then .isTrue (by rw [h])
      else .isFalse (fun hh => h (Except.ok.inj hh))
    | .ok _, .error _ => .isFalse (fun hh => Except.noConfusion hh)
    | .error _, .ok _ => .isFalse (fun hh => Except.noConfusion hh)
    | .error x, .error y =>
      if h : x = y then .isTrue (by rw [h])
      else .isFalse (fun hh => h (Except.error.inj hh))

/-- `Error::invalid_params(msg)`: code -32602, no data. -/
def invalidParams (msg : String) : RpcError :=
  { code := -32602, message := msg, data := none }

/-- `RpcCustomError::NodeUnhealthy { num_slots_behind: None }.into()`:
server error -32005 with message "Node is unhealthy" and a data payload
carrying the absent slot-lag value. -/
def nodeUnhealthyError : RpcError :=
  { code := -32005, message := "Node is unhealthy",
    data := some "\x7b\x22num_slots_behind\x22:null\x7d" }

/-! ## SHA-256 (the `sha2` crate's `Sha256`), over `Nat` with explicit
`% 2^32` wraparound.  Bytes are `Nat` values below 256. -/

/-- Right rotation of a 32-bit word held in a `Nat`, via division and
remainder by the split point. -/
def rotRight (n x : Nat) : Nat := x / 2 ^ n + x % 2 ^ n * 2 ^ (32 - n)

/-- Bitwise complement within 32 bits. -/
def not32 (x : Nat) : Nat := x ^^^ (2 ^ 32 - 1)

/-- SHA-256 choice function. -/
def choose (x y z : Nat) : Nat := (x &&& y) ^^^ (not32 x &&& z)

/-- SHA-256 majority function. -/
def major (x y z : Nat) : Nat := (x &&& y) ^^^ (x &&& z) ^^^ (y &&& z)

/-- SHA-256 upper-case sigma 0. -/
def sum0 (x : Nat) : Nat := rotRight 2 x ^^^ rotRight 13 x ^^^ rotRight 22 x

/-- SHA-256 upper-case sigma 1. -/
def sum1 (x : Nat) : Nat := rotRight 6 x ^^^ rotRight 11 x ^^^ rotRight 25 x

/-- SHA-256 lower-case sigma 0. -/
def sig0 (x : Nat) : Nat := rotRight 7 x ^^^ rotRight 18 x ^^^ x / 2 ^ 3

/-- SHA-256 lower-case sigma 1. -/
def sig1 (x : Nat) : Nat := rotRight 17 x ^^^ rotRight 19 x ^^^ x / 2 ^ 10

/-- The 64 SHA-256 round constants (FIPS 180-4), written in decimal. -/
def kConsts : List Nat :=
  [1116352408, 1899447441, 3049323471, 3921009573, 961987163, 1508970993,
   2453635748, 2870763221, 3624381080, 310598401, 607225278, 1426881987,
   1925078388, 2162078206, 2614888103, 3248222580, 3835390401, 4022224774,
   264347078, 604807628, 770255983, 1249150122, 1555081692, 1996064986,
   2554220882, 2821834349, 2952996808, 3210313671, 3336571891, 3584528711,
   113926993, 338241895, 666307205, 773529912, 1294757372, 1396182291,
   1695183700, 1986661051, 2177026350, 2456956037, 2730485921, 2820302411,
   3259730800, 3345764771, 3516065817, 3600352804, 4094571909, 275423344,
   430227734, 506948616, 659060556, 883997877, 958139571, 1322822218,
   1537002063, 1747873779, 1955562222, 2024104815, 2227730452, 2361852424,
   2428436474, 2756734187, 3204031479, 3329325298]

/-- The eight 32-bit words of a SHA-256 state. -/
structure Sha256State where
  h0 : Nat
  h1 : Nat
  h2 : Nat
  h3 : Nat
  h4 : Nat
  h5 : Nat
  h6 : Nat
  h7 : Nat
deriving Repr

/-- SHA-256 initial state (FIPS 180-4), written in decimal. -/
def initState : Sha256State :=
  { h0 := 1779033703, h1 := 3144134277, h2 := 1013904242, h3 := 2773480762,
    h4 := 1359893119, h5 := 2600822924, h6 := 528734635, h7 := 1541459225 }

/-- Group big-endian bytes into 32-bit words, four bytes to a word. -/
def toWords : List Nat → List Nat
  | a :: b :: c :: d :: rest => (((a * 256 + b) * 256 + c) * 256 + d) :: toWords rest
  | _ => []

/-- Extend the (reversed) message schedule by `n` further words; the head of
the accumulator is the most recent word. -/
def extSched : Nat → List Nat → List Nat
  | 0, acc => acc
  | n + 1, acc =>
    let w := (sig1 (acc.getD 1 0) + acc.getD 6 0 + sig0 (acc.getD 14 0)
      + acc.getD 15 0) % 2 ^ 32
    extSched n (w :: acc)

/-- The 64-word message schedule of one block (16 input words). -/
def schedule (ws : List Nat) : List Nat :=
  (extSched 48 ws.reverse).reverse

/-- One SHA-256 compression round over working variables `h0..h7` standing
for `a..h`. -/
def round (w : Sha256State) (k wt : Nat) : Sha256State :=
  let t1 := (w.h7 + sum1 w.h4 + choose w.h4 w.h5 w.h6 + k + wt) % 2 ^ 32
  let t2 := (sum0 w.h0 + major w.h0 w.h1 w.h2) % 2 ^ 32
  { h0 := (t1 + t2) % 2 ^ 32, h1 := w.h0, h2 := w.h1, h3 := w.h2,
    h4 := (w.h3 + t1) % 2 ^ 32, h5 := w.h4, h6 := w.h5, h7 := w.h6 }

/-- Run the 64 rounds over paired round constants and schedule words. -/
def runRounds : List (Nat × Nat) → Sha256State → Sha256State
  | [], w => w
  | (k, wt) :: rest, w => runRounds rest (round w k wt)

/-- Compress one 64-byte block into the running state. -/
def compress (st : Sha256State) (block : List Nat) : Sha256State :=
  let w := runRounds (kConsts.zip (schedule (toWords block))) st
  { h0 := (st.h0 + w.h0) % 2 ^ 32, h1 := (st.h1 + w.h1) % 2 ^ 32,
    h2 := (st.h2 + w.h2) % 2 ^ 32, h3 := (st.h3 + w.h3) % 2 ^ 32,
    h4 := (st.h4 + w.h4) % 2 ^ 32, h5 := (st.h5 + w.h5) % 2 ^ 32,
    h6 := (st.h6 + w.h6) % 2 ^ 32, h7 := (st.h7 + w.h7) % 2 ^ 32 }

/-- The 8-byte big-endian encoding of the message bit length. -/
def lenBytes64 (n : Nat) : List Nat :=
  [n / 2 ^ 56 % 256, n / 2 ^ 48 % 256, n / 2 ^ 40 % 256, n / 2 ^ 32 % 256,
   n / 2 ^ 24 % 256, n / 2 ^ 16 % 256, n / 2 ^ 8 % 256, n % 256]

/-- SHA-256 padding: a 0x80 byte, zeros to 56 mod 64, then the bit length. -/
def padMessage (msg : List Nat) : List Nat :=
  msg ++ 0x80 :: List.replicate ((119 - msg.length % 64) % 64) 0
    ++ lenBytes64 (msg.length * 8)

/-- Compress `n` consecutive 64-byte blocks. -/
def processBlocks : Nat → Sha256State → List Nat → Sha256State
  | 0, st, _ => st
  | n + 1, st, l => processBlocks n (compress st (l.take 64)) (l.drop 64)

/-- The 32 digest bytes of a final state, big-endian per word. -/
def digestBytes (s : Sha256State) : List Nat :=
  [s.h0 / 2 ^ 24 % 256, s.h0 / 2 ^ 16 % 256, s.h0 / 2 ^ 8 % 256, s.h0 % 256,
   s.h1 / 2 ^ 24 % 256, s.h1 / 2 ^ 16 % 256, s.h1 / 2 ^ 8 % 256, s.h1 % 256,
   s.h2 / 2 ^ 24 % 256, s.h2 / 2 ^ 16 % 256, s.h2 / 2 ^ 8 % 256, s.h2 % 256,
   s.h3 / 2 ^ 24 % 256, s.h3 / 2 ^ 16 % 256, s.h3 / 2 ^ 8 % 256, s.h3 % 256,
   s.h4 / 2 ^ 24 % 256, s.h4 / 2 ^ 16 % 256, s.h4 / 2 ^ 8 % 256, s.h4 % 256,
   s.h5 / 2 ^ 24 % 256, s.h5 / 2 ^ 16 % 256, s.h5 / 2 ^ 8 % 256, s.h5 % 256,
   s.h6 / 2 ^ 24 % 256, s.h6 / 2 ^ 16 % 256, s.h6 / 2 ^ 8 % 256, s.h6 % 256,
   s.h7 / 2 ^ 24 % 256, s.h7 / 2 ^ 16 % 256, s.h7 / 2 ^ 8 % 256, s.h7 % 256]

/-- SHA-256 of a byte list, as the 32 digest bytes. -/
def sha256 (msg : List Nat) : List Nat :=
  let padded := padMessage msg
  digestBytes (processBlocks (padded.length / 64) initState padded)

/-! ## Hex encoding (the `hex` crate's lowercase `encode`). -/

/-- The lowercase hex digit alphabet. -/
def hexAlphabet : List Char := "0123456789abcdef".data

/-- The hex digit of the low nibble of `n`. -/
def hexDigit (n : Nat) : Char := hexAlphabet.getD (n % 16) '0'

/-- Two lowercase hex characters per byte, high nibble first. -/
def hexChars : List Nat → List Char
  | [] => []
  | b :: bs => hexDigit (b / 16) :: hexDigit b :: hexChars bs

/-- `hex::encode`: lowercase, unprefixed. -/
def hexEncode (bs : List Nat) : String := ⟨hexChars bs⟩

/-! ## Base58 (the `bs58` crate's default Bitcoin alphabet `encode`). -/

/-- The Bitcoin base58 alphabet. -/
def b58Alphabet : List Char :=
  "123456789ABCDEFGHJKLMNPQRSTUVWXYZabcdefghijkmnopqrstuvwxyz".data

/-- Base-58 digits of `n`, most significant first; fuel-driven so it reduces
in the kernel.  Fuel `n` always suffices since the value shrinks by a factor
of 58 per step. -/
def b58Digits : Nat → Nat → List Char
  | 0, _ => []
  | _ + 1, 0 => []
  | fuel + 1, n + 1 =>
    b58Digits fuel ((n + 1) / 58) ++ [b58Alphabet.getD ((n + 1) % 58) '1']

/-- Count the zero bytes leading a byte list. -/
def leadingZeros : List Nat → Nat
  | 0 :: bs => leadingZeros bs + 1
  | _ => 0

/-- The big-endian numeric value of a byte list. -/
def beNat (bs : List Nat) : Nat := bs.foldl (fun acc b => acc * 256 + b) 0

/-- `bs58::encode(bytes).into_string()`: one alphabet-initial character per
leading zero byte, then the base-58 digits of the remaining value. -/
def bs58encode (bs : List Nat) : String :=
  ⟨List.replicate (leadingZeros bs) '1' ++ b58Digits (beNat bs) (beNat bs)⟩

/-! ## Base64 (standard alphabet, padded) — the encoding the wire contract
calls for on return-data. -/

/-- The standard base64 alphabet. -/
def b64Alphabet : List Char :=
  "ABCDEFGHIJKLMNOPQRSTUVWXYZabcdefghijklmnopqrstuvwxyz0123456789+/".data

/-- One base64 output character. -/
def b64Digit (n : Nat) : Char := b64Alphabet.getD (n % 64) 'A'

/-- Standard base64 character stream with `=` padding. -/
def b64Chars : List Nat → List Char
  | a :: b :: c :: rest =>
    b64Digit (a / 4) :: b64Digit (a % 4 * 16 + b / 16)
      :: b64Digit (b % 16 * 4 + c / 64) :: b64Digit (c % 64) :: b64Chars rest
  | [a, b] =>
    [b64Digit (a / 4), b64Digit (a % 4 * 16 + b / 16), b64Digit (b % 16 * 4), '=']
  | [a] => [b64Digit (a / 4), b64Digit (a % 4 * 16), '=', '=']
  | [] => []

/-- Standard padded base64 of a byte list. -/
def base64Encode (bs : List Nat) : String := ⟨b64Chars bs⟩

/-! ## UTF-8 bytes of a string (`str::as_bytes`). -/

/-- UTF-8 encoding of one scalar value. -/
def utf8Char (c : Char) : List Nat :=
  let n := c.toNat
  if n < 0x80 then [n]
  else if n < 0x800 then [0xc0 + n / 64, 0x80 + n % 64]
  else if n < 0x10000 then
    [0xe0 + n / 4096, 0x80 + n / 64 % 64, 0x80 + n % 64]
  else
    [0xf0 + n / 262144, 0x80 + n / 4096 % 64, 0x80 + n / 64 % 64, 0x80 + n % 64]

/-- UTF-8 byte stream of a string. -/
def utf8Bytes (s : String) : List Nat := s.data.flatMap utf8Char

/-- `Vec::join(",")`: elements in order, a single comma between adjacent
elements, no trailing separator, no separator for a singleton. -/
def joinComma : List String → String
  | [] => ""
  | [s] => s
  | s :: rest => s ++ "," ++ joinComma rest

/-! ## Configuration and signature types. -/

/-- The transaction wire encodings of `UiTransactionEncoding` as carried in
a request config. -/
inductive UiTransactionEncoding where
  | binary
  | base58
  | base64
  | json
  | jsonParsed
deriving DecidableEq, Repr

/-- The binary transaction encodings (`TransactionBinaryEncoding`). -/
inductive TransactionBinaryEncoding where
  | base58
  | base64
deriving DecidableEq, Repr

/-- Modelled from the spec: the supported-encoding set of the external codec
interface is exactly `\x7bBase58, Base64\x7d` ("Encoding: enumerated
\x7bBase58, Base64\x7d ... Unsupported encodings are a hard error naming the
offending value"); every other declared encoding has no binary form. -/
def UiTransactionEncoding.intoBinaryEncoding :
    UiTransactionEncoding → Option TransactionBinaryEncoding
  | .base58 => some .base58
  | .base64 => some .base64
  | _ => none

/-- The display form of an encoding value, as interpolated into error
messages. -/
def UiTransactionEncoding.display : UiTransactionEncoding → String
  | .binary => "binary"
  | .base58 => "base58"
  | .base64 => "base64"
  | .json => "json"
  | .jsonParsed => "jsonParsed"

/-- `RpcSendTransactionConfig`. -/
structure RpcSendTransactionConfig where
  skipPreflight : Bool
  preflightCommitment : Option Nat
  encoding : Option UiTransactionEncoding
  maxRetries : Option Nat
  minContextSlot : Option Nat
deriving DecidableEq, Repr

/-- `RpcSimulateTransactionConfig`. -/
structure RpcSimulateTransactionConfig where
  sigVerify : Bool
  replaceRecentBlockhash : Bool
  commitment : Option Nat
  encoding : Option UiTransactionEncoding
  accounts : Option Unit
  minContextSlot : Option Nat
  innerInstructions : Bool
deriving DecidableEq, Repr

/-- `RpcSimulateTransactionConfig::default()`: all toggles off, nothing
declared. -/
def simulateConfigDefault : RpcSimulateTransactionConfig :=
  { sigVerify := false, replaceRecentBlockhash := false, commitment := none,
    encoding := none, accounts := none, minContextSlot := none,
    innerInstructions := false }

/-- A parsed `Signature`, embedded by its string form (the only observation
the bundle layer makes of it). -/
structure Signature where
  str : String
deriving DecidableEq, Repr

/-! ## `send_bundle` (`SurfpoolJitoRpc::send_bundle`).

The single-transaction submission primitive
(`SurfpoolFullRpc::send_transaction`) and the signature parser
(`Signature::from_str`) are external to this layer and passed as function
parameters.  `meta` is the `Option<RunloopContext>` metadata, of which this
layer observes only presence. -/

/-- A `SendTx` is the external submission primitive: metadata, encoded
transaction data, and the forwarded config, yielding a signature string or
a JSON-RPC error. -/
def SendTx : Type :=
  Option Unit → String → Option RpcSendTransactionConfig → Except RpcError String

/-- A `ParseSig` is the external signature parser, yielding a parse-error
description or a signature. -/
def ParseSig : Type := String → Except String Signature

/-- The sequential submission loop body: submit each member in order through
`sendTx`, parse each returned signature string, and collect the parsed
signatures; on the first submission failure return the underlying error with
its message rewritten to name the failing 0-based index. -/
def processBundle (sendTx : SendTx) (parseSig : ParseSig) (meta : Option Unit)
    (cfg : Option RpcSendTransactionConfig) :
    List String → Nat → Except RpcError (List Signature)
  | [], _ => .ok []
  | txData :: rest, idx =>
    match sendTx meta txData cfg with
    | .ok sigStr =>
      match parseSig sigStr with
      | .ok sig => (processBundle sendTx parseSig meta cfg rest (idx + 1)).map
          (fun sigs => sig :: sigs)
      | .error e => .error (invalidParams ("Failed to parse signature: " ++ e))
    | .error e =>
      .error { code := e.code,
               message := "Bundle transaction " ++ toString idx ++ " failed: "
                 ++ e.message,
               data := e.data }

/-- The ordered trace of calls the submission loop makes to the external
primitive: each entry is the transaction data and the config it is passed.
The loop stops calling after the first submission or parse failure. -/
def bundleCalls (sendTx : SendTx) (parseSig : ParseSig) (meta : Option Unit)
    (cfg : Option RpcSendTransactionConfig) :
    List String → List (String × Option RpcSendTransactionConfig)
  | [] => []
  | txData :: rest =>
    (txData, cfg) ::
      match sendTx meta txData cfg with
      | .ok sigStr =>
        match parseSig sigStr with
        | .ok _ => bundleCalls sendTx parseSig meta cfg rest
        | .error _ => []
      | .error _ => []

/-- Bundle-identifier derivation (`send_bundle`, hashing step): lowercase hex
of the SHA-256 digest of the UTF-8 bytes of the comma-joined signature
strings. -/
def bundleId (sigs : List Signature) : String :=
  hexEncode (sha256 (utf8Bytes (joinComma (sigs.map Signature.str))))

/-- `send_bundle`: reject the empty bundle, require a context, drive the
sequential fail-fast submission loop, then derive the bundle identifier. -/
def sendBundle (sendTx : SendTx) (parseSig : ParseSig) (meta : Option Unit)
    (transactions : List String) (cfg : Option RpcSendTransactionConfig) :
    Except RpcError String :=
  if transactions.isEmpty then .error (invalidParams "Bundle cannot be empty")
  else
    match meta with
    | none => .error nodeUnhealthyError
    | some _ =>
      (processBundle sendTx parseSig meta cfg transactions 0).map bundleId

/-- The calls `send_bundle` makes to the external submission primitive: none
when the bundle is empty or the context is missing, otherwise the loop's
trace. -/
def sendBundleCalls (sendTx : SendTx) (parseSig : ParseSig) (meta : Option Unit)
    (transactions : List String) (cfg : Option RpcSendTransactionConfig) :
    List (String × Option RpcSendTransactionConfig) :=
  if transactions.isEmpty then []
  else
    match meta with
    | none => []
    | some _ => bundleCalls sendTx parseSig meta cfg transactions

/-! ## `simulate_bundle` (`SurfpoolJitoRpc::simulate_bundle`).

The transaction decoder (`decode_and_deserialize`), the chained-simulation
engine (`svm_locker.simulate_bundle`) and the slot accessor
(`svm_locker.get_latest_absolute_slot`) are external to this layer and
passed as parameters; the decoded transaction type is abstract. -/

/-- Return data attached to a simulated transaction
(`TransactionReturnData`): owning program and raw bytes. -/
structure TransactionReturnData where
  programId : String
  data : List Nat
deriving DecidableEq, Repr

/-- The execution metadata of one simulated transaction. -/
structure TransactionMeta where
  logs : List String
  computeUnitsConsumed : Nat
  returnData : TransactionReturnData
deriving DecidableEq, Repr

/-- A successful per-transaction simulation outcome from the engine. -/
structure SimulatedTransactionInfo where
  meta : TransactionMeta
deriving DecidableEq, Repr

/-- A failed per-transaction simulation outcome from the engine. -/
structure FailedTransactionInfo where
  err : String
  meta : TransactionMeta
deriving DecidableEq, Repr

/-- One engine outcome: `Result<SimulatedTransactionInfo, FailedTransactionInfo>`. -/
def SimOutcome : Type := Except FailedTransactionInfo SimulatedTransactionInfo

/-- `UiReturnDataEncoding` (the wire tag on return data). -/
inductive UiReturnDataEncoding where
  | base64
deriving DecidableEq, Repr

/-- `UiTransactionReturnData` as placed on the wire: program id, the encoded
data string, and the encoding tag it is declared to be in. -/
structure UiTransactionReturnData where
  programId : String
  dataStr : String
  dataEncoding : UiReturnDataEncoding
deriving DecidableEq, Repr

/-- `RpcSimulateTransactionResult`, the per-transaction wire value. -/
structure RpcSimulateTransactionResult where
  err : Option String
  logs : Option (List String)
  accounts : Option Unit
  unitsConsumed : Option Nat
  returnData : Option UiTransactionReturnData
  innerInstructions : Option Unit
  replacementBlockhash : Option String
  loadedAccountsDataSize : Option Nat
deriving DecidableEq, Repr

/-- `RpcResponseContext`: the slot tag on each wire result. -/
structure RpcResponseContext where
  slot : Nat
  apiVersion : Option String
deriving DecidableEq, Repr

/-- `RpcResponse<RpcSimulateTransactionResult>`. -/
structure RpcSimResponse where
  context : RpcResponseContext
  value : RpcSimulateTransactionResult
deriving DecidableEq, Repr

/-- Shape the return-data field as the source does: omit it when the raw
bytes are empty, otherwise emit the `bs58`-encoded byte string tagged as
Base64. -/
def shapeReturnData (rd : TransactionReturnData) : Option UiTransactionReturnData :=
  if rd.data.isEmpty then none
  else some { programId := rd.programId, dataStr := bs58encode rd.data,
              dataEncoding := .base64 }

/-- Shape one engine outcome into the wire value, mirroring the source's
match: logs and compute units carried through, accounts and
inner-instruction traces omitted, the error payload kept on failure. -/
def shapeResult (outcome : SimOutcome) : RpcSimulateTransactionResult :=
  match outcome with
  | .ok info =>
    { err := none, logs := some info.meta.logs, accounts := none,
      unitsConsumed := some info.meta.computeUnitsConsumed,
      returnData := shapeReturnData info.meta.returnData,
      innerInstructions := none, replacementBlockhash := none,
      loadedAccountsDataSize := none }
  | .error failed =>
    { err := some failed.err, logs := some failed.meta.logs, accounts := none,
      unitsConsumed := some failed.meta.computeUnitsConsumed,
      returnData := shapeReturnData failed.meta.returnData,
      innerInstructions := none, replacementBlockhash := none,
      loadedAccountsDataSize := none }

/-- The fail-fast decode loop: decode every transaction in order before any
simulation; the first failure aborts with the underlying error, its message
rewritten to name the failing 0-based index. -/
def decodeAll {Tx : Type} (decode : String → TransactionBinaryEncoding → Except RpcError Tx)
    (binEnc : TransactionBinaryEncoding) :
    List String → Nat → Except RpcError (List Tx)
  | [], _ => .ok []
  | txData :: rest, idx =>
    match decode txData binEnc with
    | .ok tx => (decodeAll decode binEnc rest (idx + 1)).map (fun txs => tx :: txs)
    | .error e =>
      .error { code := e.code,
               message := "Failed to decode transaction " ++ toString idx ++ ": "
                 ++ e.message,
               data := e.data }

/-- `simulate_bundle`: reject the empty bundle, resolve the encoding (default
Base58) to its binary form or fail naming the offending value, decode every
transaction fail-fast, require a context, run the external chained engine
once over the decoded list, and wrap each shaped outcome with the single
latest slot observed at call time. -/
def simulateBundle {Tx : Type}
    (decode : String → TransactionBinaryEncoding → Except RpcError Tx)
    (engine : List Tx → Bool → List SimOutcome)
    (latestSlot : Nat) (meta : Option Unit)
    (transactions : List String) (config : Option RpcSimulateTransactionConfig) :
    Except RpcError (List RpcSimResponse) :=
  if transactions.isEmpty then .error (invalidParams "Bundle cannot be empty")
  else
    let cfg := config.getD simulateConfigDefault
    let txEncoding := cfg.encoding.getD .base58
    match txEncoding.intoBinaryEncoding with
    | none =>
      .error (invalidParams ("unsupported encoding: " ++ txEncoding.display
        ++ ". Supported encodings: base58, base64"))
    | some binaryEncoding =>
      match decodeAll decode binaryEncoding transactions 0 with
      | .error e => .error e
      | .ok decodedTxs =>
        match meta with
        | none => .error nodeUnhealthyError
        | some _ =>
          let simulationResults := engine decodedTxs cfg.sigVerify
          .ok (simulationResults.map (fun simResult =>
            { context := { slot := latestSlot, apiVersion := none },
              value := shapeResult simResult }))

/-! ## Concrete instantiations of the external interfaces, for evaluating
the endpoints on closed inputs. -/

/-- A submission primitive that accepts every transaction, returning a
signature string derived from the data. -/
def sendTxOk : SendTx := fun _ txData _ => .ok ("S" ++ txData)

/-- A submission primitive that rejects the member `"t1"` with a payload-
carrying error and accepts everything else. -/
def sendTxFailT1 : SendTx := fun _ txData _ =>
  if txData = "t1" then .error { code := 5, message := "boom", data := some "detail" }
  else .ok "SIG"

/-- A parser accepting every signature string. -/
def parseSigOk : ParseSig := fun s => .ok { str := s }

/-- A caller-supplied submission config that leaves preflight enabled. -/
def cfgNoSkip : RpcSendTransactionConfig :=
  { skipPreflight := false, preflightCommitment := none, encoding := none,
    maxRetries := none, minContextSlot := none }

/-- A decoder accepting every transaction (decoded type `Unit`). -/
def decodeOkU : String → TransactionBinaryEncoding → Except RpcError Unit :=
  fun _ _ => .ok ()

/-- A decoder rejecting the member `"bad"` and accepting everything else. -/
def decodeFailBad : String → TransactionBinaryEncoding → Except RpcError Unit :=
  fun txData _ =>
    if txData = "bad" then .error { code := -32602, message := "invalid base58 encoding", data := none }
    else .ok ()

/-- An engine outcome whose return data holds the bytes `[1, 2, 3]`. -/
def outcomeRd123 : SimOutcome :=
  .ok { meta := { logs := ["log"], computeUnitsConsumed := 7,
                  returnData := { programId := "pid", data := [1, 2, 3] } } }

/-- An engine producing one `outcomeRd123` per decoded transaction. -/
def engineRd123 : List Unit → Bool → List SimOutcome :=
  fun txs _ => txs.map (fun _ => outcomeRd123)

/-- An engine producing no outcomes. -/
def engineEmpty : List Unit → Bool → List SimOutcome := fun _ _ => []

/-- The wire results of simulating a two-member bundle through
`engineRd123` at slot 5. -/
def twoMemberResults : List RpcSimResponse :=
  (engineRd123 [(), ()] false).map (fun r =>
    { context := { slot := 5, apiVersion := none }, value := shapeResult r })

/-- A simulate config declaring the unsupported `jsonParsed` encoding. -/
def cfgJsonParsed : RpcSimulateTransactionConfig :=
  { sigVerify := false, replaceRecentBlockhash := false, commitment := none,
    encoding := some .jsonParsed, accounts := none, minContextSlot := none,
    innerInstructions := false }

/-! ## Helper lemmas. -/

/-- Hex encoding emits two characters per byte. -/
theorem hexChars_length (bs : List Nat) : (hexChars bs).length = 2 * bs.length := by
  induction bs with
  | nil => rfl
  | cons b bs ih => simp [hexChars, ih]; omega

/-- A SHA-256 digest is 32 bytes. -/
theorem sha256_length (msg : List Nat) : (sha256 msg).length = 32 := rfl

/-- Every hex digit character is drawn from the lowercase alphabet. -/
theorem hexDigit_mem (n : Nat) : hexDigit n ∈ hexAlphabet := by
  have h : ∀ m, m < 16 → hexAlphabet.getD m '0' ∈ hexAlphabet := by decide
  exact h (n % 16) (Nat.mod_lt n (by decide))

/-- Every character of a hex encoding is drawn from the lowercase alphabet. -/
theorem hexChars_mem (bs : List Nat) : ∀ c ∈ hexChars bs, c ∈ hexAlphabet := by
  induction bs with
  | nil => intro c hc; cases hc
  | cons b bs ih =>
    intro c hc
    rcases hc with _ | ⟨_, hc⟩
    · exact hexDigit_mem _
    · rcases hc with _ | ⟨_, hc⟩
      · exact hexDigit_mem _
      · exact ih c hc

/-- A successful decode pass yields one decoded transaction per input. -/
theorem decodeAll_length {Tx : Type}
    (decode : String → TransactionBinaryEncoding → Except RpcError Tx)
    (binEnc : TransactionBinaryEncoding) :
    ∀ (txs : List String) (n : Nat) (ds : List Tx),
      decodeAll decode binEnc txs n = .ok ds → ds.length = txs.length := by
  intro txs
  induction txs with
  | nil =>
    intro n ds h
    cases h
    rfl
  | cons t rest ih =>
    intro n ds h
    unfold decodeAll at h
    cases hd : decode t binEnc with
    | ok tx =>
      rw [hd] at h
      cases hr : decodeAll decode binEnc rest (n + 1) with
      | ok ds' =>
        rw [hr] at h
        cases h
        simp [ih (n + 1) ds' hr]
      | error e => rw [hr] at h; cases h
    | error e => rw [hd] at h; cases h

/-- The submission loop on an empty member list collects nothing. -/
theorem processBundle_nil (sendTx : SendTx) (parseSig : ParseSig)
    (meta : Option Unit) (cfg : Option RpcSendTransactionConfig) (n : Nat)
    (sigs : List Signature)
    (h : processBundle sendTx parseSig meta cfg [] n = .ok sigs) : sigs = [] := by
  cases h
  rfl

/-- A list with a distinguished member is not empty. -/
theorem isEmpty_append_cons {α : Type} (pre : List α) (t : α) (post : List α) :
    (pre ++ t :: post).isEmpty = false := by
  cases pre <;> rfl

/-- Fail-fast submission: when every member before `t` submits and parses
and `t` itself fails with `e`, the loop returns `e` with its message
rewritten to name `t`'s absolute index, whatever follows `t`. -/
theorem processBundle_first_fail (sendTx : SendTx) (parseSig : ParseSig)
    (cfg : Option RpcSendTransactionConfig) (e : RpcError) :
    ∀ (pre : List String) (t : String) (post : List String) (n m : Nat),
      m = n + pre.length →
      (∀ p ∈ pre, ∃ s sig, sendTx (some ()) p cfg = .ok s ∧ parseSig s = .ok sig) →
      sendTx (some ()) t cfg = .error e →
      processBundle sendTx parseSig (some ()) cfg (pre ++ t :: post) n =
        .error { code := e.code,
                 message := "Bundle transaction " ++ toString m
                   ++ " failed: " ++ e.message,
                 data := e.data } := by
  intro pre
  induction pre with
  | nil =>
    intro t post n m hm _ hfail
    rw [List.nil_append]
    simp at hm
    simp [processBundle, hfail, hm]
  | cons p rest ih =>
    intro t post n m hm hok hfail
    obtain ⟨s, sig, hsend, hparse⟩ := hok p (List.mem_cons_self p rest)
    have hrec := ih t post (n + 1) m (by simp at hm; omega)
      (fun q hq => hok q (List.mem_cons_of_mem p hq)) hfail
    rw [List.cons_append]
    simp [processBundle, hsend, hparse, hrec, Except.map]

/-- The submission-call trace under the same first-failure scenario: exactly
the members up to and including `t`, each paired with the caller's config. -/
theorem bundleCalls_first_fail (sendTx : SendTx) (parseSig : ParseSig)
    (cfg : Option RpcSendTransactionConfig) (e : RpcError) :
    ∀ (pre : List String) (t : String) (post : List String),
      (∀ p ∈ pre, ∃ s sig, sendTx (some ()) p cfg = .ok s ∧ parseSig s = .ok sig) →
      sendTx (some ()) t cfg = .error e →
      bundleCalls sendTx parseSig (some ()) cfg (pre ++ t :: post) =
        (pre ++ [t]).map (fun x => (x, cfg)) := by
  intro pre
  induction pre with
  | nil =>
    intro t post _ hfail
    rw [List.nil_append]
    simp [bundleCalls, hfail]
  | cons p rest ih =>
    intro t post hok hfail
    obtain ⟨s, sig, hsend, hparse⟩ := hok p (List.mem_cons_self p rest)
    have hrec := ih t post (fun q hq => hok q (List.mem_cons_of_mem p hq)) hfail
    rw [List.cons_append]
    simp [bundleCalls, hsend, hparse, hrec]

/-- Every call the submission loop makes forwards the caller's config
unchanged. -/
theorem bundleCalls_config (sendTx : SendTx) (parseSig : ParseSig)
    (meta : Option Unit) (cfg : Option RpcSendTransactionConfig) :
    ∀ (txs : List String) (p : String × Option RpcSendTransactionConfig),
      p ∈ bundleCalls sendTx parseSig meta cfg txs → p.2 = cfg := by
  intro txs
  induction txs with
  | nil => intro p hp; cases hp
  | cons t rest ih =>
    intro p hp
    unfold bundleCalls at hp
    rcases hp with _ | ⟨_, hp⟩
    · rfl
    · split at hp
      · split at hp
        · exact ih p hp
        · cases hp
      · cases hp

/-- Fail-fast decode: when every member before `t` decodes and `t` itself
fails with `e`, the decode pass returns `e` with its message rewritten to
name `t`'s absolute index, whatever follows `t`. -/
theorem decodeAll_first_fail {Tx : Type}
    (decode : String → TransactionBinaryEncoding → Except RpcError Tx)
    (binEnc : TransactionBinaryEncoding) (e : RpcError) :
    ∀ (pre : List String) (t : String) (post : List String) (n m : Nat),
      m = n + pre.length →
      (∀ p ∈ pre, ∃ tx, decode p binEnc = .ok tx) →
      decode t binEnc = .error e →
      decodeAll decode binEnc (pre ++ t :: post) n =
        .error { code := e.code,
                 message := "Failed to decode transaction "
                   ++ toString m ++ ": " ++ e.message,
                 data := e.data } := by
  intro pre
  induction pre with
  | nil =>
    intro t post n m hm _ hfail
    rw [List.nil_append]
    simp at hm
    simp [decodeAll, hfail, hm]
  | cons p rest ih =>
    intro t post n m hm hok hfail
    obtain ⟨tx, hdec⟩ := hok p (List.mem_cons_self p rest)
    have hrec := ih t post (n + 1) m (by simp at hm; omega)
      (fun q hq => hok q (List.mem_cons_of_mem p hq)) hfail
    rw [List.cons_append]
    simp [decodeAll, hdec, hrec, Except.map]

/-! ## Claims. -/

/-- C1: the spec claims every non-empty return-data is surfaced
Base64-encoded on the wire; the code instead emits the `bs58` (Base58)
encoding of the bytes while tagging the string `Base64`.  On return-data
bytes `[1, 2, 3]` the wire string is the Base58 form `"Ldp"`, not the
Base64 form `"AQID"` that both the claim and the code's own encoding tag
call for. -/
theorem C1_return_data_base58_not_base64 :
    (simulateBundle decodeOkU engineRd123 5 (some ()) ["t"] none).map
        (fun rs => rs.map (fun r => r.value.returnData))
      = .ok [some { programId := "pid", dataStr := bs58encode [1, 2, 3],
                    dataEncoding := .base64 }]
    ∧ bs58encode [1, 2, 3] = "Ldp"
    ∧ base64Encode [1, 2, 3] = "AQID"
    ∧ bs58encode [1, 2, 3] ≠ base64Encode [1, 2, 3] := by
  decide

/-- C2 counterexample: with a caller config whose skip-preflight is `false`,
the config handed to the external submission primitive still has
skip-preflight `false` — it is not forced to `true` as the claim states. -/
theorem C2_counterexample :
    (sendBundleCalls sendTxOk parseSigOk (some ()) ["t0"] (some cfgNoSkip)).map
        Prod.snd
      = [some cfgNoSkip]
    ∧ cfgNoSkip.skipPreflight = false := by
  decide

/-- C2 (amended): every call `sendBundle` makes to the external
single-transaction submission primitive forwards the caller-supplied config
unchanged — in particular skip-preflight keeps the caller's value (or
absence) and is never overridden. -/
theorem C2_config_forwarded_unchanged (sendTx : SendTx) (parseSig : ParseSig)
    (meta : Option Unit) (txs : List String)
    (cfg : Option RpcSendTransactionConfig)
    (p : String × Option RpcSendTransactionConfig)
    (hp : p ∈ sendBundleCalls sendTx parseSig meta txs cfg) : p.2 = cfg := by
  cases txs with
  | nil => simp [sendBundleCalls] at hp
  | cons t rest =>
    cases meta with
    | none => simp [sendBundleCalls] at hp
    | some u =>
      simp only [sendBundleCalls, List.isEmpty_cons] at hp
      exact bundleCalls_config sendTx parseSig (some u) cfg (t :: rest) p hp

/-- C2 witness: a concrete bundle member whose forwarded config is exactly
the caller's. -/
theorem C2_config_forwarded_unchanged_witness :
    ("t0", some cfgNoSkip) ∈
        sendBundleCalls sendTxOk parseSigOk (some ()) ["t0"] (some cfgNoSkip)
    ∧ (("t0", some cfgNoSkip) :
        String × Option RpcSendTransactionConfig).2 = some cfgNoSkip :=
  ⟨by decide,
   C2_config_forwarded_unchanged sendTxOk parseSigOk (some ()) ["t0"]
     (some cfgNoSkip) ("t0", some cfgNoSkip) (by decide)⟩

/-- C3: on a successful submission run collecting the (non-empty) signature
list, `sendBundle` returns the lowercase hex of the SHA-256 digest of the
UTF-8 bytes of the comma-joined signature strings; the identifier has 64
characters, all lowercase hex, the join places a single comma between
adjacent signatures with none trailing and none for a singleton, and the
identifier is a function of the ordered list of signature strings alone. -/
theorem C3_bundle_identifier (sendTx : SendTx) (parseSig : ParseSig)
    (cfg : Option RpcSendTransactionConfig) (txs : List String)
    (sigs : List Signature)
    (hrun : processBundle sendTx parseSig (some ()) cfg txs 0 = .ok sigs)
    (hne : sigs ≠ []) :
    sendBundle sendTx parseSig (some ()) txs cfg
      = .ok (hexEncode (sha256 (utf8Bytes (joinComma (sigs.map Signature.str)))))
    ∧ (bundleId sigs).length = 64
    ∧ (∀ c ∈ (bundleId sigs).data, c ∈ hexAlphabet)
    ∧ (∀ s : String, joinComma [s] = s)
    ∧ (∀ (s : String) (ts : List String), ts ≠ [] →
        joinComma (s :: ts) = s ++ "," ++ joinComma ts)
    ∧ (∀ sigs₂ : List Signature,
        sigs₂.map Signature.str = sigs.map Signature.str →
        bundleId sigs₂ = bundleId sigs) := by
  refine ⟨?_, ?_, ?_, ?_, ?_, ?_⟩
  · cases txs with
    | nil => exact absurd (processBundle_nil _ _ _ _ _ _ hrun) hne
    | cons t rest => simp [sendBundle, hrun, bundleId, Except.map]
  · show (hexChars (sha256 (utf8Bytes (joinComma (sigs.map Signature.str))))).length = 64
    rw [hexChars_length, sha256_length]
  · intro c hc
    exact hexChars_mem _ c hc
  · intro s
    rfl
  · intro s ts hts
    cases ts with
    | nil => exact absurd rfl hts
    | cons a b => rfl
  · intro sigs₂ h
    unfold bundleId
    rw [h]

/-- C3 witness: a concrete two-member bundle whose identifier is the digest
of `"Sa,Sb"`. -/
theorem C3_bundle_identifier_witness :
    sendBundle sendTxOk parseSigOk (some ()) ["a", "b"] none
      = .ok (hexEncode (sha256 (utf8Bytes (joinComma
          ([Signature.mk "Sa", Signature.mk "Sb"].map Signature.str))))) :=
  (C3_bundle_identifier sendTxOk parseSigOk none ["a", "b"]
    [Signature.mk "Sa", Signature.mk "Sb"] (by decide) (by decide)).1

/-- C4: when every member before `t` submits and parses successfully and `t`
itself (at 0-based index `pre.length`) is the first to fail with `e`,
`sendBundle` returns `e` with code and data preserved and the message
rewritten to name the failing index, and the submission primitive is called
exactly on the members up to and including `t` — none after it. -/
theorem C4_fail_fast_submission (sendTx : SendTx) (parseSig : ParseSig)
    (cfg : Option RpcSendTransactionConfig) (pre : List String) (t : String)
    (post : List String) (e : RpcError)
    (hok : ∀ p ∈ pre, ∃ s sig,
      sendTx (some ()) p cfg = .ok s ∧ parseSig s = .ok sig)
    (hfail : sendTx (some ()) t cfg = .error e) :
    sendBundle sendTx parseSig (some ()) (pre ++ t :: post) cfg
      = .error { code := e.code,
                 message := "Bundle transaction " ++ toString pre.length
                   ++ " failed: " ++ e.message,
                 data := e.data }
    ∧ sendBundleCalls sendTx parseSig (some ()) (pre ++ t :: post) cfg
      = (pre ++ [t]).map (fun x => (x, cfg)) := by
  constructor
  · have h := processBundle_first_fail sendTx parseSig cfg e pre t post 0
      pre.length (by omega) hok hfail
    simp [sendBundle, isEmpty_append_cons, h, Except.map]
  · have h := bundleCalls_first_fail sendTx parseSig cfg e pre t post hok hfail
    simp [sendBundleCalls, isEmpty_append_cons, h]

/-- C4 witness: three members with the second failing — one successful
submission, no call past index 1, and the error names index 1 while keeping
code 5 and the original data payload. -/
theorem C4_fail_fast_submission_witness :
    sendBundle sendTxFailT1 parseSigOk (some ()) ["t0", "t1", "t2"] none
      = .error { code := 5, message := "Bundle transaction 1 failed: boom",
                 data := some "detail" }
    ∧ sendBundleCalls sendTxFailT1 parseSigOk (some ()) ["t0", "t1", "t2"] none
      = [("t0", none), ("t1", none)] := by
  have h := C4_fail_fast_submission sendTxFailT1 parseSigOk none ["t0"] "t1"
    ["t2"] { code := 5, message := "boom", data := some "detail" }
    (by
      intro p hp
      simp at hp
      subst hp
      exact ⟨"SIG", Signature.mk "SIG", by decide, by decide⟩)
    (by decide)
  exact ⟨h.1.trans (by decide), h.2.trans (by decide)⟩

/-- C5: when every member before `t` decodes and `t` itself (at 0-based
index `pre.length`) is the first decode failure, `simulateBundle` returns
the decode error with its message rewritten to name the failing index —
for every engine, slot and context, so the chained-simulation engine is
never consulted. -/
theorem C5_fail_fast_decode {Tx : Type}
    (decode : String → TransactionBinaryEncoding → Except RpcError Tx)
    (engine : List Tx → Bool → List SimOutcome) (latestSlot : Nat)
    (meta : Option Unit) (config : Option RpcSimulateTransactionConfig)
    (be : TransactionBinaryEncoding)
    (pre : List String) (t : String) (post : List String) (e : RpcError)
    (henc : ((config.getD simulateConfigDefault).encoding.getD
      UiTransactionEncoding.base58).intoBinaryEncoding = some be)
    (hok : ∀ p ∈ pre, ∃ tx, decode p be = .ok tx)
    (hfail : decode t be = .error e) :
    simulateBundle decode engine latestSlot meta (pre ++ t :: post) config
      = .error { code := e.code,
                 message := "Failed to decode transaction "
                   ++ toString pre.length ++ ": " ++ e.message,
                 data := e.data } := by
  have h := decodeAll_first_fail decode be e pre t post 0 pre.length (by omega)
    hok hfail
  simp [simulateBundle, isEmpty_append_cons, henc, h]

/-- C5 witness: three members with the second malformed — the call aborts
naming index 1, for an engine that is never consulted. -/
theorem C5_fail_fast_decode_witness :
    simulateBundle decodeFailBad engineEmpty 0 (some ()) ["x", "bad", "y"] none
      = .error { code := -32602,
                 message := "Failed to decode transaction 1: invalid base58 encoding",
                 data := none } := by
  have h := C5_fail_fast_decode decodeFailBad engineEmpty 0 (some ()) none
    .base58 ["x"] "bad" ["y"]
    { code := -32602, message := "invalid base58 encoding", data := none }
    (by decide)
    (by
      intro p hp
      simp at hp
      subst hp
      exact ⟨(), by decide⟩)
    (by decide)
  exact h.trans (by decide)

/-- C6: both endpoints reject the empty bundle with the invalid-params
error before touching any external interface: the submission primitive is
never called, and the simulate result does not depend on the decoder, the
engine, the slot accessor or the context. -/
theorem C6_empty_bundle_rejected (sendTx : SendTx) (parseSig : ParseSig)
    (meta : Option Unit) (cfg : Option RpcSendTransactionConfig) :
    sendBundle sendTx parseSig meta [] cfg
      = .error (invalidParams "Bundle cannot be empty")
    ∧ sendBundleCalls sendTx parseSig meta [] cfg = []
    ∧ ∀ (Tx : Type) (decode : String → TransactionBinaryEncoding → Except RpcError Tx)
        (engine : List Tx → Bool → List SimOutcome) (latestSlot : Nat)
        (scfg : Option RpcSimulateTransactionConfig),
        simulateBundle decode engine latestSlot meta [] scfg
          = .error (invalidParams "Bundle cannot be empty") :=
  ⟨rfl, rfl, fun _ _ _ _ _ => rfl⟩

/-- C7 counterexample: with no execution context and a malformed member,
`simulate_bundle` returns the decode error, not the node-unhealthy error —
decoding happens before the health check, contrary to the claim. -/
theorem C7_counterexample :
    simulateBundle decodeFailBad engineEmpty 0 none ["bad"] none
      = .error { code := -32602,
                 message := "Failed to decode transaction 0: invalid base58 encoding",
                 data := none }
    ∧ simulateBundle decodeFailBad engineEmpty 0 none ["bad"] none
        ≠ .error nodeUnhealthyError := by
  decide

/-- C7 (amended): with a non-empty bundle, no execution context, and a
resolvable encoding, the node-unhealthy error is surfaced only after every
transaction has decoded successfully; the decode pass runs first. -/
theorem C7_unhealthy_after_decode {Tx : Type}
    (decode : String → TransactionBinaryEncoding → Except RpcError Tx)
    (engine : List Tx → Bool → List SimOutcome) (latestSlot : Nat)
    (txs : List String) (config : Option RpcSimulateTransactionConfig)
    (be : TransactionBinaryEncoding) (ds : List Tx)
    (htxs : txs ≠ [])
    (henc : ((config.getD simulateConfigDefault).encoding.getD
      UiTransactionEncoding.base58).intoBinaryEncoding = some be)
    (hdec : decodeAll decode be txs 0 = .ok ds) :
    simulateBundle decode engine latestSlot none txs config
      = .error nodeUnhealthyError := by
  cases txs with
  | nil => exact absurd rfl htxs
  | cons t rest => simp [simulateBundle, henc, hdec]

/-- C7 witness: a well-formed one-member bundle with no context yields the
node-unhealthy error. -/
theorem C7_unhealthy_after_decode_witness :
    simulateBundle decodeOkU engineEmpty 0 none ["x"] none
      = .error nodeUnhealthyError :=
  C7_unhealthy_after_decode decodeOkU engineEmpty 0 ["x"] none .base58 [()]
    (by decide) (by decide) (by decide)

/-- C8: a successful `simulateBundle` call whose engine returned one outcome
per decoded transaction yields exactly the engine's outcomes shaped in
order — hence one result per input transaction, in input order — and every
result's response context carries the single slot observed at call time. -/
theorem C8_one_result_per_transaction {Tx : Type}
    (decode : String → TransactionBinaryEncoding → Except RpcError Tx)
    (engine : List Tx → Bool → List SimOutcome) (latestSlot : Nat)
    (txs : List String) (config : Option RpcSimulateTransactionConfig)
    (be : TransactionBinaryEncoding) (ds : List Tx) (rs : List RpcSimResponse)
    (henc : ((config.getD simulateConfigDefault).encoding.getD
      UiTransactionEncoding.base58).intoBinaryEncoding = some be)
    (hdec : decodeAll decode be txs 0 = .ok ds)
    (hres : simulateBundle decode engine latestSlot (some ()) txs config
      = .ok rs)
    (harity : (engine ds (config.getD simulateConfigDefault).sigVerify).length
      = ds.length) :
    rs = (engine ds (config.getD simulateConfigDefault).sigVerify).map
        (fun r => { context := { slot := latestSlot, apiVersion := none },
                    value := shapeResult r })
    ∧ rs.length = txs.length
    ∧ ∀ r ∈ rs, r.context.slot = latestSlot := by
  cases txs with
  | nil => simp [simulateBundle, invalidParams] at hres
  | cons t rest =>
    simp only [simulateBundle, List.isEmpty_cons, Bool.false_eq_true,
      if_false, henc, hdec, Except.ok.injEq] at hres
    refine ⟨hres.symm, ?_, ?_⟩
    · rw [← hres, List.length_map, harity,
        decodeAll_length decode be (t :: rest) 0 ds hdec]
    · intro r hr
      rw [← hres] at hr
      obtain ⟨x, _, hx⟩ := List.mem_map.mp hr
      rw [← hx]

/-- C8 witness: a two-member bundle simulated at slot 5 yields two results,
both stamped with slot 5, in engine order. -/
theorem C8_one_result_per_transaction_witness :
    twoMemberResults = (engineRd123 [(), ()] false).map
        (fun r => { context := { slot := 5, apiVersion := none },
                    value := shapeResult r })
    ∧ twoMemberResults.length = 2
    ∧ ∀ r ∈ twoMemberResults, r.context.slot = 5 := by
  have h := C8_one_result_per_transaction decodeOkU engineRd123 5 ["a", "b"]
    none .base58 [(), ()] twoMemberResults
    (by decide) (by decide) (by decide) (by decide)
  exact ⟨h.1, h.2.1.trans (by decide), h.2.2⟩

/-- C9: a declared encoding outside the supported set is rejected with an
invalid-params error whose message names the offending value; an absent
encoding is instead resolved to the Base58 default, both when the config
omits the field and when the config itself is omitted. -/
theorem C9_unsupported_encoding_rejected {Tx : Type}
    (decode : String → TransactionBinaryEncoding → Except RpcError Tx)
    (engine : List Tx → Bool → List SimOutcome) (latestSlot : Nat)
    (meta : Option Unit) (txs : List String)
    (cfg : RpcSimulateTransactionConfig) (enc : UiTransactionEncoding)
    (htxs : txs ≠ [])
    (hcfg : cfg.encoding = some enc)
    (henc : enc.intoBinaryEncoding = none) :
    simulateBundle decode engine latestSlot meta txs (some cfg)
      = .error (invalidParams ("unsupported encoding: " ++ enc.display
          ++ ". Supported encodings: base58, base64"))
    ∧ (∀ cfg₂ : RpcSimulateTransactionConfig, cfg₂.encoding = none →
        simulateBundle decode engine latestSlot meta txs (some cfg₂)
          = simulateBundle decode engine latestSlot meta txs
              (some { cfg₂ with encoding := some .base58 }))
    ∧ simulateBundle decode engine latestSlot meta txs none
        = simulateBundle decode engine latestSlot meta txs
            (some simulateConfigDefault) := by
  refine ⟨?_, ?_, rfl⟩
  · cases txs with
    | nil => exact absurd rfl htxs
    | cons t rest => simp [simulateBundle, hcfg, henc]
  · intro cfg₂ h2
    simp [simulateBundle, h2]

/-- C9 witness: declaring `jsonParsed` on a one-member bundle fails naming
`jsonParsed`. -/
theorem C9_unsupported_encoding_rejected_witness :
    simulateBundle decodeOkU engineEmpty 0 (some ()) ["x"] (some cfgJsonParsed)
      = .error (invalidParams
          "unsupported encoding: jsonParsed. Supported encodings: base58, base64") := by
  have h := C9_unsupported_encoding_rejected decodeOkU engineEmpty 0 (some ())
    ["x"] cfgJsonParsed .jsonParsed (by decide) (by decide) (by decide)
  exact h.1.trans (by decide)

/-- C10: with an empty transaction list and no execution context,
`sendBundle` returns the invalid-params empty-bundle error — the emptiness
check precedes the health check, so the node-unhealthy error is not the
result. -/
theorem C10_empty_check_precedes_health (sendTx : SendTx) (parseSig : ParseSig)
    (cfg : Option RpcSendTransactionConfig) :
    sendBundle sendTx parseSig none [] cfg
      = .error (invalidParams "Bundle cannot be empty")
    ∧ sendBundle sendTx parseSig none [] cfg ≠ .error nodeUnhealthyError :=
  ⟨rfl, fun h => absurd (Except.error.inj h)
    (by decide :
      ¬ invalidParams "Bundle cannot be empty" = nodeUnhealthyError)⟩

end Surfpool
